import Mathlib

/-!
Verification development for the monitoring core of the pilot repository
(src/pilot/control/monitor.py, src/pilot/util/monitoring.py).

The Python functions are shallowly embedded as pure Lean functions.
External collaborators (site validators, the loop-detection algorithm,
process execution, the filesystem) are passed in as explicit oracle
arguments; machine state that the Python code mutates (the job object,
the monitoring-time map, the set of killed processes and removed files)
is threaded explicitly.
-/

namespace Pilot

/-- Numeric value of a list of decimal digit characters. -/
def digitsVal (cs : List Char) : Nat :=
  cs.foldl (fun a c => a * 10 + (c.toNat - 48)) 0

/-- Whitespace as stripped by Python int() around a numeric literal. -/
def isPySpace (c : Char) : Bool :=
  c = ' ' ∨ c = '\t' ∨ c = '\n' ∨ c = '\r'

/-- Strip leading and trailing whitespace from a character list. -/
def trimChars (cs : List Char) : List Char :=
  ((cs.dropWhile isPySpace).reverse.dropWhile isPySpace).reverse

/-- Embedding of Python int(s) on strings: optional surrounding whitespace,
an optional sign, then a nonempty run of decimal digits; anything else raises
ValueError, modelled as none. -/
def pyParseInt (s : String) : Option Int :=
  match trimChars s.toList with
  | [] => none
  | c :: rest =>
    if c = '-' then
      if rest ≠ [] ∧ rest.all Char.isDigit then some (-(digitsVal rest : Int)) else none
    else if c = '+' then
      if rest ≠ [] ∧ rest.all Char.isDigit then some ((digitsVal rest : Int)) else none
    else
      if (c :: rest).all Char.isDigit then some ((digitsVal (c :: rest) : Int)) else none

/-- Python truthiness of a string value: nonempty is truthy. -/
def pyTruthy (s : String) : Bool :=
  s ≠ ""

/-- The fixed set of interval-gated checks, i.e. the keys of the
monitoring-time map (ct_memory, ct_proxy, ct_looping, ct_diskspace). -/
inductive CheckKey where
  | memory
  | proxy
  | looping
  | diskspace
deriving DecidableEq, Repr

/-- Modelled from the spec: the MonitoringTime class is not part of the
source excerpt (src/pilot/util/timing.py does not define it); per the spec it
is a mapping from check name to the epoch timestamp of its last successful
run, with get returning the stored timestamp and update (mark_done) storing
the current time. -/
structure MonitoringTime where
  ct_memory : Int
  ct_proxy : Int
  ct_looping : Int
  ct_diskspace : Int
deriving DecidableEq, Repr

/-- Lookup of a check timestamp, mt.get(key). -/
def MonitoringTime.get (mt : MonitoringTime) : CheckKey → Int
  | CheckKey.memory => mt.ct_memory
  | CheckKey.proxy => mt.ct_proxy
  | CheckKey.looping => mt.ct_looping
  | CheckKey.diskspace => mt.ct_diskspace

/-- Update of a check timestamp, mt.update(key), storing the time now at
which the update happens. -/
def MonitoringTime.update (mt : MonitoringTime) (k : CheckKey) (now : Int) : MonitoringTime :=
  match k with
  | CheckKey.memory => { mt with ct_memory := now }
  | CheckKey.proxy => { mt with ct_proxy := now }
  | CheckKey.looping => { mt with ct_looping := now }
  | CheckKey.diskspace => { mt with ct_diskspace := now }

/-- Modelled from the spec: the ErrorCodes class is not part of the source
excerpt; the spec names an unknown-exception code for looping-algorithm
crashes.  The concrete numeric value is not in the excerpt; it only matters
that it is nonzero and distinct from the other codes. -/
def UNKNOWNEXCEPTION : Int := 1064

/-- Modelled from the spec: the stdout-too-big error code (nonzero, distinct). -/
def STDOUTTOOBIG : Int := 1124

/-- Modelled from the spec: the user-directory-too-large error code (nonzero, distinct). -/
def USERDIRTOOLARGE : Int := 1126

/-- Modelled from the spec: the no-local-space error code (nonzero, distinct). -/
def NOLOCALSPACE : Int := 1098

/-- The queuedata object as used by the monitoring core: read-only site
configuration with a maximum wall time and a maximum work-directory size,
both held as strings as delivered by the information system. -/
structure Queuedata where
  maxtime : String
  maxwdir : String
deriving DecidableEq, Repr

/-- Embedding of get_max_running_time(lifetime, queuedata) from
src/pilot/control/monitor.py lines 201 to 234: start from the pilot-option
lifetime; if queuedata is present and queuedata.maxtime is truthy, try
int(maxtime); on parse failure keep the lifetime, on a parsed zero fall back
to the lifetime, otherwise use the parsed value. -/
def get_max_running_time (lifetime : Int) (queuedata : Option Queuedata) : Int :=
  match queuedata with
  | none => lifetime
  | some qd =>
    if pyTruthy qd.maxtime then
      match pyParseInt qd.maxtime with
      | none => lifetime
      | some v => if v = 0 then lifetime else v
    else
      lifetime

/-- Result of one interval-gated wrapper from src/pilot/util/monitoring.py:
the returned exit code and diagnostics, the monitoring-time map after the
call, and whether the underlying check function was actually invoked. -/
structure GateResult where
  ec : Int
  diag : String
  mt : MonitoringTime
  invoked : Bool
deriving DecidableEq, Repr

/-- Embedding of verify_memory_usage(current_time, mt, job) from
src/pilot/util/monitoring.py lines 94 to 122.  The pluggable site validator
is abstracted: allow is the value of memory.allow_memory_usage_verifications()
and memory_usage_result the value of memory.memory_usage(job); the configured
interval (convert_to_int of config.Pilot.memory_usage_verification_time,
default 60) is passed resolved. -/
def verify_memory_usage (current_time : Int) (mt : MonitoringTime)
    (memory_usage_verification_time : Int) (allow : Bool)
    (memory_usage_result : Int × String) : GateResult :=
  if allow = false then
    ⟨0, "", mt, false⟩
  else if current_time - mt.get CheckKey.memory > memory_usage_verification_time then
    if memory_usage_result.1 ≠ 0 then
      ⟨memory_usage_result.1, memory_usage_result.2, mt, true⟩
    else
      ⟨0, "", mt.update CheckKey.memory current_time, true⟩
  else
    ⟨0, "", mt, false⟩

/-- Embedding of verify_user_proxy(current_time, mt) from
src/pilot/util/monitoring.py lines 125 to 149, with the pluggable
userproxy.verify_proxy() result abstracted and the configured interval
(default 600) passed resolved. -/
def verify_user_proxy (current_time : Int) (mt : MonitoringTime)
    (proxy_verification_time : Int) (verify_proxy_result : Int × String) : GateResult :=
  if current_time - mt.get CheckKey.proxy > proxy_verification_time then
    if verify_proxy_result.1 ≠ 0 then
      ⟨verify_proxy_result.1, verify_proxy_result.2, mt, true⟩
    else
      ⟨0, "", mt.update CheckKey.proxy current_time, true⟩
  else
    ⟨0, "", mt, false⟩

/-- Embedding of verify_looping_job(current_time, mt, job) from
src/pilot/util/monitoring.py lines 152 to 181.  The external looping_job
algorithm is abstracted as an Except value: error e models a raised
exception with text e, ok a normal (exit code, diagnostics) return.  The
try/except of the source catches the exception and turns it into the
UNKNOWNEXCEPTION code with the exception text in the diagnostics. -/
def verify_looping_job (current_time : Int) (mt : MonitoringTime)
    (looping_verifiction_time : Int)
    (looping_job_result : Except String (Int × String)) : GateResult :=
  if current_time - mt.get CheckKey.looping > looping_verifiction_time then
    match looping_job_result with
    | Except.error e =>
      ⟨UNKNOWNEXCEPTION, "exception caught in looping job algorithm: " ++ e, mt, true⟩
    | Except.ok r =>
      if r.1 ≠ 0 then
        ⟨r.1, r.2, mt, true⟩
      else
        ⟨0, "", mt.update CheckKey.looping current_time, true⟩
  else
    ⟨0, "", mt, false⟩

/-- Embedding of verify_disk_usage(current_time, mt, job) from
src/pilot/util/monitoring.py lines 184 to 217: when due, run
check_payload_stdout, check_local_space and check_work_dir in that order,
returning the first nonzero result; only when all three return zero is
ct_diskspace updated.  The three sub-check results are abstracted; invoked
records whether the sub-check battery was entered. -/
def verify_disk_usage (current_time : Int) (mt : MonitoringTime)
    (disk_space_verification_time : Int)
    (stdout_res local_res workdir_res : Int × String) : GateResult :=
  if current_time - mt.get CheckKey.diskspace > disk_space_verification_time then
    if stdout_res.1 ≠ 0 then
      ⟨stdout_res.1, stdout_res.2, mt, true⟩
    else if local_res.1 ≠ 0 then
      ⟨local_res.1, local_res.2, mt, true⟩
    else if workdir_res.1 ≠ 0 then
      ⟨workdir_res.1, workdir_res.2, mt, true⟩
    else
      ⟨0, "", mt.update CheckKey.diskspace current_time, true⟩
  else
    ⟨0, "", mt, false⟩

/-- The three cancellation flags shared between the monitor and the rest of
the agent (threading.Event objects in the source). -/
structure AbortFlags where
  abort_job : Bool
  graceful_stop : Bool
  job_aborted : Bool
deriving DecidableEq, Repr

/-- Outcome of one run_checks call: the final flag values, how many times
graceful_stop.set() was performed by this call, and how many times the
ExceededMaxWaitTime exception was raised. -/
structure RunChecksResult where
  flags : AbortFlags
  graceful_stop_sets : Nat
  raised : Nat
deriving DecidableEq, Repr

/-- Whether job_aborted is observed set at second t after run_checks enters
its waiting phase: either it was set initially, or the external confirmation
arrives at second ta with ta ≤ t. -/
def abortedBy (s : AbortFlags) (ta : Option Nat) (t : Nat) : Bool :=
  s.job_aborted || (match ta with
    | some a => decide (a ≤ t)
    | none => false)

/-- Embedding of run_checks(queues, args) from src/pilot/control/monitor.py
lines 152 to 198, restricted to the flag protocol (abort_jobs_in_queues is an
external side effect with no bearing on the flags).  Time is discrete with
the 1-second polling cadence of the source: the first wait loop observes
job_aborted at seconds 0..119, the second at seconds 120..129; ta gives the
second at which the external confirmation arrives (none for never). -/
def run_checks (s : AbortFlags) (ta : Option Nat) : RunChecksResult :=
  if s.abort_job = false then
    ⟨s, 0, 0⟩
  else if abortedBy s ta 119 then
    ⟨{ s with abort_job := false, job_aborted := true }, 0, 0⟩
  else
    let sets : Nat := if s.graceful_stop then 0 else 1
    let s1 := { s with graceful_stop := true }
    if abortedBy s ta 120 then
      ⟨{ s1 with job_aborted := true }, sets, 0⟩
    else if abortedBy s ta 129 then
      ⟨{ s1 with abort_job := false, job_aborted := true }, sets, 0⟩
    else
      ⟨{ s1 with abort_job := false, job_aborted := true }, sets, 1⟩

/-- A concrete monitoring-time map with all timestamps zero. -/
def mtZero : MonitoringTime :=
  ⟨0, 0, 0, 0⟩

/-- The job object fields read or mutated by the monitoring checks. -/
structure Job where
  pid : Int
  state : String
  workdir : String
  jobparams : String
  infiles : List String
  piloterrorcodes : List Int
  piloterrordiags : List String
  workdirsizes : List Int
deriving DecidableEq, Repr

/-- Modelled from the spec: job.add_workdir_size(size) appends the measured
size to the job's work-directory size history (the method body is not in the
excerpt; the spec states the size history is appended to). -/
def Job.add_workdir_size (j : Job) (size : Int) : Job :=
  { j with workdirsizes := j.workdirsizes ++ [size] }

/-- Modelled from the spec: errors.add_error_code(code) attaches the given
error code with a diagnostic text (the ErrorCodes class is not in the
excerpt); the source calls it without passing the current lists, so the
returned lists carry the new code. -/
def add_error_code (code : Int) : List Int × List String :=
  ([code], [toString code])

/-- Does stem match the first characters of hay. -/
def leadMatches : List Char → List Char → Bool
  | [], _ => true
  | _ :: _, [] => false
  | n :: ns, h :: hs => if n = h then leadMatches ns hs else false

/-- Does hay contain needle as a contiguous run. -/
def containsSeq : List Char → List Char → Bool
  | [], needle => decide (needle = [])
  | c :: rest, needle => leadMatches needle (c :: rest) || containsSeq rest needle

/-- Python substring test, needle in hay. -/
def strContains (hay needle : String) : Bool :=
  containsSeq hay.toList needle.toList

/-- Embedding of get_local_size_limit_stdout(bytes) from
src/pilot/util/monitoring.py lines 273 to 292: int() of the configured
value config.Pilot.local_size_limit_stdout, falling back to 2097152 (a value
the source treats as kB) on any parse failure; when bytes is true the kB
value is multiplied by 1024. -/
def get_local_size_limit_stdout (cfg : String) (bytes : Bool) : Int :=
  let localsizelimit_stdout : Int :=
    match pyParseInt cfg with
    | some n => n
    | none => 2097152
  if bytes then localsizelimit_stdout * 1024 else localsizelimit_stdout

/-- Python exception kinds raised by the modelled fragments. -/
inductive PyError where
  | typeError
deriving DecidableEq, Repr

/-- Embedding of get_max_input_size(queuedata, megabyte) from
src/pilot/util/monitoring.py lines 466 to 501: prefer int(queuedata.maxwdir)
(in MB, converted to bytes unless megabyte is true); on empty value or parse
failure use the 14336 MB pilot default. -/
def get_max_input_size (qd : Queuedata) (megabyte : Bool) : Int :=
  let max_input_file_sizes : Int := 14 * 1024 * 1024 * 1024
  let max_input_file_sizes_mb : Int := 14 * 1024
  if pyTruthy qd.maxwdir then
    match pyParseInt qd.maxwdir with
    | some v => if megabyte then v else v * 1024 * 1024
    | none => if megabyte then max_input_file_sizes_mb else max_input_file_sizes
  else
    if megabyte then max_input_file_sizes_mb else max_input_file_sizes

/-- Embedding of get_max_allowed_work_dir_size(queuedata) from
src/pilot/util/monitoring.py lines 445 to 463: int(queuedata.maxwdir) in MB
converted to bytes; on any failure the except branch evaluates
get_max_input_size() with no argument, although get_max_input_size declares
queuedata as a required positional parameter, so the branch raises TypeError
instead of producing the documented fallback. -/
def get_max_allowed_work_dir_size (qd : Queuedata) : Except PyError Int :=
  match pyParseInt qd.maxwdir with
  | some m => Except.ok (m * 1024 ^ 2)
  | none => Except.error PyError.typeError

/-- Diagnostics text of the stdout-too-big failure. -/
def stdoutTooBigMsg (fsize limit : Int) : String :=
  "Payload stdout file too big: " ++ toString fsize ++ " B (larger than limit " ++
    toString limit ++ " B)"

/-- State threaded through the file loop of check_payload_stdout: the
running exit code and diagnostics, the job object, and the observed external
effects (kill_processes targets, files handed to remove_files). -/
structure PayloadCheckState where
  ec : Int
  diag : String
  job : Job
  killed : List Int
  removed : List String
deriving DecidableEq, Repr

/-- One iteration of the file loop of check_payload_stdout
(src/pilot/util/monitoring.py lines 323 to 357): skip names containing
job.log.tgz; for an existing file above the limit, kill the payload process
tree, set the job state to failed, attach the STDOUTTOOBIG error code, and,
when input files are listed, hand them to remove_files whose exit code
becomes the returned one.  fs models os.path.exists and os.path.getsize. -/
def check_stdout_file (localsizelimit_stdout : Int) (fs : String → Option Int)
    (remove_files_ec : Int) (st : PayloadCheckState) (filename : String) :
    PayloadCheckState :=
  if strContains filename ("job.log.tgz") then st
  else
    match fs filename with
    | none => st
    | some fsize =>
      if fsize > localsizelimit_stdout then
        let codes := add_error_code STDOUTTOOBIG
        let j := { st.job with
          state := "failed", piloterrorcodes := codes.1, piloterrordiags := codes.2 }
        let st1 : PayloadCheckState := { st with
          diag := stdoutTooBigMsg fsize localsizelimit_stdout,
          job := j,
          killed := st.killed ++ [st.job.pid] }
        if st1.job.infiles ≠ [] then
          { st1 with ec := remove_files_ec, removed := st1.removed ++ st1.job.infiles }
        else
          st1
      else
        st

/-- Number of sub-jobs of a multi-trf job: job.jobparams.count of newline,
plus one. -/
def n_jobs (jobparams : String) : Nat :=
  (jobparams.toList.filter (fun c => c = '\n')).length + 1

/-- os.path.join as used for the monitored file paths. -/
def pathJoin (dir name : String) : String :=
  dir ++ "/" ++ name

/-- The payload stdout file names appended to the file list by
check_payload_stdout: config.Payload.payloadstdout, with _i inserted before
the txt suffix when the job is multi-trf. -/
def payload_stdout_names (payloadstdout : String) (n : Nat) : List String :=
  (List.range n).map (fun i =>
    if n > 1 then
      payloadstdout.replace (".txt") ("_" ++ toString (i + 1) ++ ".txt")
    else
      payloadstdout)

/-- The file list checked by check_payload_stdout: the glob of log.* files
in the work directory followed by the payload stdout paths. -/
def payload_file_list (job : Job) (payloadstdout : String)
    (log_files : List String) : List String :=
  log_files ++
    (payload_stdout_names payloadstdout (n_jobs job.jobparams)).map (pathJoin job.workdir)

/-- Embedding of check_payload_stdout(job) from src/pilot/util/monitoring.py
lines 295 to 359: fold the per-file check over the file list, starting from
exit code 0, empty diagnostics and no external effects. -/
def check_payload_stdout (job : Job) (payloadstdout : String)
    (local_size_limit_stdout_cfg : String) (log_files : List String)
    (fs : String → Option Int) (remove_files_ec : Int) : PayloadCheckState :=
  (payload_file_list job payloadstdout log_files).foldl
    (check_stdout_file (get_local_size_limit_stdout local_size_limit_stdout_cfg true)
      fs remove_files_ec)
    ⟨0, "", job, [], []⟩

/-- Diagnostics text of the work-directory-too-large failure. -/
def workDirTooBigMsg (workdir : String) (size limit : Int) : String :=
  "work directory (" ++ workdir ++ ") is too large: " ++ toString size ++
    " B (must be < " ++ toString limit ++ " B)"

/-- Result of check_work_dir: exit code, diagnostics, job object, killed
process trees and files handed to remove_files. -/
structure WorkDirResult where
  ec : Int
  diag : String
  job : Job
  killed : List Int
  removed : List String
deriving DecidableEq, Repr

/-- Embedding of check_work_dir(job) from src/pilot/util/monitoring.py lines
386 to 442.  workdir_exists models os.path.exists(job.workdir); size1 the
first get_directory_size measurement, size2 the re-measurement after input
files are removed; ls_ec the exit code of the diagnostic ls execution, which
the source stores in exit_code, and remove_files_ec the remove_files result
which overwrites it when input files are listed.  The maximum is resolved by
get_max_allowed_work_dir_size, whose TypeError propagates.  When the
measured (or re-measured) size is positive it is appended to the job's size
history in both the passing and the failing case. -/
def check_work_dir (job : Job) (qd : Queuedata) (workdir_exists : Bool)
    (size1 size2 ls_ec remove_files_ec : Int) : Except PyError WorkDirResult :=
  if workdir_exists then
    match get_max_allowed_work_dir_size qd with
    | Except.error e => Except.error e
    | Except.ok maxwdirsize =>
      if workdir_exists then
        let workdirsize := size1
        if workdirsize > maxwdirsize then
          let codes := add_error_code USERDIRTOOLARGE
          let j := { job with
            state := "failed", piloterrorcodes := codes.1, piloterrordiags := codes.2 }
          if job.infiles ≠ [] then
            let j2 := if size2 > 0 then j.add_workdir_size size2 else j
            Except.ok ⟨remove_files_ec, workDirTooBigMsg job.workdir workdirsize maxwdirsize,
              j2, [job.pid], job.infiles⟩
          else
            let j2 := if workdirsize > 0 then j.add_workdir_size workdirsize else j
            Except.ok ⟨ls_ec, workDirTooBigMsg job.workdir workdirsize maxwdirsize,
              j2, [job.pid], []⟩
        else
          let j2 := if workdirsize > 0 then job.add_workdir_size workdirsize else job
          Except.ok ⟨0, "", j2, [], []⟩
      else
        Except.ok ⟨0, "", job, [], []⟩
  else
    Except.ok ⟨0, "", job, [], []⟩

/-- A file fails the stdout size check when its name does not contain
job.log.tgz, it exists, and its size is strictly above the limit. -/
def triggersStdout (limit : Int) (fs : String → Option Int) (f : String) : Bool :=
  (!(strContains f ("job.log.tgz"))) &&
    (match fs f with
     | some sz => decide (sz > limit)
     | none => false)

/-- Carried along the whole fold of check_payload_stdout: the per-file step
never changes the pid or the input-file list of the job, and never sets a
nonzero exit code when no input files are listed. -/
def C4Base (job0 : Job) (st : PayloadCheckState) : Prop :=
  st.job.pid = job0.pid ∧ st.job.infiles = job0.infiles ∧ (job0.infiles = [] → st.ec = 0)

/-- Once some file has failed the stdout check: the job is failed with the
STDOUTTOOBIG code attached, the payload process tree was killed, when input
files are listed the exit code is the remove_files result and every input
file was handed to remove_files, and without input files the exit code is
still zero. -/
def C4Fail (job0 : Job) (rf : Int) (st : PayloadCheckState) : Prop :=
  st.job.pid = job0.pid ∧ st.job.infiles = job0.infiles
  ∧ st.job.state = "failed" ∧ STDOUTTOOBIG ∈ st.job.piloterrorcodes
  ∧ job0.pid ∈ st.killed
  ∧ (job0.infiles ≠ [] → st.ec = rf ∧ ∀ x ∈ job0.infiles, x ∈ st.removed)
  ∧ (job0.infiles = [] → st.ec = 0)

/-- A concrete job with no input files for the stdout-check counterexample. -/
def jobC4 : Job :=
  { pid := 123
    state := "running"
    workdir := "/w"
    jobparams := "params"
    infiles := []
    piloterrorcodes := []
    piloterrordiags := []
    workdirsizes := [] }

/-- A concrete job with one input file for the stdout-check witness. -/
def jobC4w : Job :=
  { pid := 7
    state := "running"
    workdir := "/w"
    jobparams := "p"
    infiles := ["in1"]
    piloterrorcodes := []
    piloterrordiags := []
    workdirsizes := [] }

/-- A concrete filesystem with a 3 MiB payload stdout file. -/
def fsC4 : String → Option Int :=
  fun name => if name = "/w/payload.stdout" then some 3145728 else none

/-- The steps job_monitor_tasks can perform, in source order: the memory
check (with the CPU-time update), the proxy check, the looping check, the
disk battery, the utility supervision and the heartbeat. -/
inductive Task where
  | memory
  | proxy
  | looping
  | disk
  | utility
  | heartbeat
deriving DecidableEq, Repr

/-- The results the four verify wrappers would return this tick, abstracted
as oracles for the control-flow embedding of job_monitor_tasks. -/
structure MonitorOracles where
  memory_res : Int × String
  proxy_res : Int × String
  looping_res : Int × String
  disk_res : Int × String

/-- Embedding of job_monitor_tasks(job, mt, args) from
src/pilot/util/monitoring.py lines 34 to 91, with each wrapper call
abstracted to its result and the performed steps recorded in order: the
memory check (after the CPU-time update) runs only in the running state and
returns early on a nonzero result; the proxy check runs when
args.verify_proxy is set and returns early on a nonzero result; the looping
and disk checks each return early on a nonzero result; then utility
supervision runs when job.utilities is nonempty, and the heartbeat is sent. -/
def job_monitor_tasks (state : String) (verify_proxy : Bool)
    (utilities_nonempty : Bool) (o : MonitorOracles) : Int × String × List Task :=
  if state = "running" ∧ o.memory_res.1 ≠ 0 then
    (o.memory_res.1, o.memory_res.2, [Task.memory])
  else
    let t1 : List Task := if state = "running" then [Task.memory] else []
    if verify_proxy = true ∧ o.proxy_res.1 ≠ 0 then
      (o.proxy_res.1, o.proxy_res.2, t1 ++ [Task.proxy])
    else
      let t2 := t1 ++ (if verify_proxy then [Task.proxy] else [])
      if o.looping_res.1 ≠ 0 then
        (o.looping_res.1, o.looping_res.2, t2 ++ [Task.looping])
      else if o.disk_res.1 ≠ 0 then
        (o.disk_res.1, o.disk_res.2, t2 ++ [Task.looping, Task.disk])
      else
        (0, "", t2 ++ [Task.looping, Task.disk]
          ++ (if utilities_nonempty then [Task.utility] else []) ++ [Task.heartbeat])

/-- A tick whose looping check fails while everything else is healthy. -/
def oLoopFail : MonitorOracles :=
  ⟨(0, ""), (0, ""), (9, "looping detected"), (0, "")⟩

/-- One utility-command supervision record of job.utilities: whether the
subprocess is still running (poll() is None), the launch counter and the
command line. -/
structure UtilityRecord where
  running : Bool
  launches : Nat
  cmd : String
deriving DecidableEq, Repr

/-- Embedding of the per-command body of utility_monitor(job) from
src/pilot/util/monitoring.py lines 236 to 270: if the subprocess has exited
and the stored launch counter is at most 5, relaunch it (exec_ok abstracts
whether execute succeeds; on an execute exception the record is left as is)
and store the record with the counter incremented by one; above the cap the
dead record is left untouched; a still-running record is not modified (only
its output file presence is logged). -/
def utility_monitor_step (r : UtilityRecord) (exec_ok : Bool) : UtilityRecord :=
  if r.running = false then
    if r.launches ≤ 5 then
      if exec_ok then ⟨true, r.launches + 1, r.cmd⟩ else r
    else r
  else r

/-- Whether a call of the supervision body relaunches the command. -/
def relaunches (r : UtilityRecord) (exec_ok : Bool) : Bool :=
  (!r.running) && decide (r.launches ≤ 5) && exec_ok

/-- One observed crash followed by the next utility_monitor call with a
succeeding execute. -/
def crash_then_monitor (r : UtilityRecord) : UtilityRecord :=
  utility_monitor_step { r with running := false } true

/-- The record after n observed crashes, each followed by a monitor call. -/
def after_crashes (r : UtilityRecord) : Nat → UtilityRecord
  | 0 => r
  | n + 1 => crash_then_monitor (after_crashes r n)

/-- Modelled from the spec: the record created at the first launch of a
utility command (created outside the excerpt); the stored counter keeps
track of how many times the command has been launched, so it starts at 1. -/
def initialUtilityRecord (cmd : String) : UtilityRecord :=
  ⟨true, 1, cmd⟩

theorem MonitoringTime.get_update_self (mt : MonitoringTime) (k : CheckKey) (now : Int) :
    (mt.update k now).get k = now := by
  cases k <;> rfl

theorem abortedBy_le (s : AbortFlags) (ta : Option Nat) {t u : Nat} (h : t ≤ u)
    (hab : abortedBy s ta t = true) : abortedBy s ta u = true := by
  unfold abortedBy at hab ⊢
  rcases ta with _ | a
  · simpa using hab
  · simp only [Bool.or_eq_true, decide_eq_true_eq] at hab ⊢
    rcases hab with hj | ha
    · exact Or.inl hj
    · exact Or.inr (le_trans ha h)

/-- C1: abort escalation in run_checks.  If abort_job is set and job_aborted
is observed within the 120 s window, abort_job is cleared, the call returns,
no exception is raised and graceful_stop is untouched; if not observed within
120 s, graceful_stop ends up set and is set by this call exactly once when it
was clear and zero times when it was already set; if job_aborted is still not
observed through the extra 10 s window, abort_job is cleared, job_aborted is
force-set and the fatal exceeded-max-wait-time exception is raised exactly
once. -/
theorem c1_run_checks_abort_escalation (s : AbortFlags) (ta : Option Nat)
    (h : s.abort_job = true) :
    (abortedBy s ta 119 = true →
      run_checks s ta = ⟨{ s with abort_job := false, job_aborted := true }, 0, 0⟩)
    ∧ (abortedBy s ta 119 = false →
      (run_checks s ta).flags.graceful_stop = true
        ∧ (run_checks s ta).graceful_stop_sets = (if s.graceful_stop then 0 else 1))
    ∧ (abortedBy s ta 129 = false →
      run_checks s ta =
        ⟨{ s with abort_job := false, graceful_stop := true, job_aborted := true },
          (if s.graceful_stop then 0 else 1), 1⟩) := by
  refine ⟨?_, ?_, ?_⟩
  · intro hab
    simp [run_checks, h, hab]
  · intro hab
    cases h120 : abortedBy s ta 120 <;> cases h129 : abortedBy s ta 129 <;>
      simp [run_checks, h, hab, h120, h129]
  · intro h129
    have h119 : abortedBy s ta 119 = false := by
      cases hx : abortedBy s ta 119
      · rfl
      · have hy := @abortedBy_le s ta 119 129 (by norm_num) hx
        rw [h129] at hy
        exact absurd hy (by simp)
    have h120 : abortedBy s ta 120 = false := by
      cases hx : abortedBy s ta 120
      · rfl
      · have hy := @abortedBy_le s ta 120 129 (by norm_num) hx
        rw [h129] at hy
        exact absurd hy (by simp)
    simp [run_checks, h, h119, h120, h129]

theorem c1_run_checks_abort_escalation_witness :
    (run_checks ⟨true, false, false⟩ (some 50) = ⟨⟨false, false, true⟩, 0, 0⟩)
    ∧ ((run_checks ⟨true, false, false⟩ (some 125)).flags.graceful_stop = true)
    ∧ (run_checks ⟨true, false, false⟩ none = ⟨⟨false, true, true⟩, 1, 1⟩) :=
  ⟨(c1_run_checks_abort_escalation ⟨true, false, false⟩ (some 50) rfl).1 (by decide),
   ((c1_run_checks_abort_escalation ⟨true, false, false⟩ (some 125) rfl).2.1 (by decide)).1,
   (c1_run_checks_abort_escalation ⟨true, false, false⟩ none rfl).2.2 (by decide)⟩

/-- C2 counterexample: the memory wrapper can skip the underlying check even
when the interval has elapsed, namely when the site validator disallows
memory verifications: the due call returns (0, "") with mt unchanged and
the underlying check not invoked, while the claim as stated demands that
any due check be invoked. -/
theorem c2_interval_gating_cex :
    (1000 : Int) - mtZero.get CheckKey.memory > 60
    ∧ (verify_memory_usage 1000 mtZero 60 false (7, "mem")).invoked = false
    ∧ verify_memory_usage 1000 mtZero 60 false (7, "mem") = ⟨0, "", mtZero, false⟩ := by
  refine ⟨by decide, by decide, by decide⟩

/-- C2 amended: interval gating for all four wrappers.  A call within the
interval returns (0, "") with mt unchanged and without invoking the
underlying check.  A call after the interval invokes the underlying check,
except that the memory wrapper additionally requires the site validator to
allow memory verifications and otherwise returns (0, "") with mt unchanged
and the check not invoked.  When the invoked check returns a zero exit code
the timestamp is updated to the call time, after which a second call within
the interval does not invoke the check again.  The looping clauses quantify
over an arbitrary underlying outcome (nonzero, zero or raising). -/
theorem c2_interval_gating_amended
    (now now2 I : Int) (mt : MonitoringTime)
    (allow allow2 : Bool) (mres mres2 pres pres2 : Int × String)
    (lres lres2 : Except String (Int × String)) (lr : Int × String)
    (sres lcres wres sres2 lcres2 wres2 : Int × String) :
    (now - mt.get CheckKey.memory ≤ I →
      verify_memory_usage now mt I allow mres = ⟨0, "", mt, false⟩)
    ∧ (now - mt.get CheckKey.memory > I → allow = false →
      verify_memory_usage now mt I allow mres = ⟨0, "", mt, false⟩)
    ∧ (now - mt.get CheckKey.proxy ≤ I →
      verify_user_proxy now mt I pres = ⟨0, "", mt, false⟩)
    ∧ (now - mt.get CheckKey.looping ≤ I →
      verify_looping_job now mt I lres = ⟨0, "", mt, false⟩)
    ∧ (now - mt.get CheckKey.diskspace ≤ I →
      verify_disk_usage now mt I sres lcres wres = ⟨0, "", mt, false⟩)
    ∧ (now - mt.get CheckKey.memory > I → allow = true →
      (verify_memory_usage now mt I allow mres).invoked = true)
    ∧ (now - mt.get CheckKey.proxy > I →
      (verify_user_proxy now mt I pres).invoked = true)
    ∧ (now - mt.get CheckKey.looping > I →
      (verify_looping_job now mt I lres).invoked = true)
    ∧ (now - mt.get CheckKey.diskspace > I →
      (verify_disk_usage now mt I sres lcres wres).invoked = true)
    ∧ (now - mt.get CheckKey.memory > I → allow = true → mres.1 = 0 →
      verify_memory_usage now mt I allow mres
          = ⟨0, "", mt.update CheckKey.memory now, true⟩
        ∧ (now2 - now ≤ I →
          (verify_memory_usage now2 (mt.update CheckKey.memory now) I allow2 mres2).invoked
            = false))
    ∧ (now - mt.get CheckKey.proxy > I → pres.1 = 0 →
      verify_user_proxy now mt I pres = ⟨0, "", mt.update CheckKey.proxy now, true⟩
        ∧ (now2 - now ≤ I →
          (verify_user_proxy now2 (mt.update CheckKey.proxy now) I pres2).invoked = false))
    ∧ (now - mt.get CheckKey.looping > I → lres = Except.ok lr → lr.1 = 0 →
      verify_looping_job now mt I lres
          = ⟨0, "", mt.update CheckKey.looping now, true⟩
        ∧ (now2 - now ≤ I →
          (verify_looping_job now2 (mt.update CheckKey.looping now) I lres2).invoked = false))
    ∧ (now - mt.get CheckKey.diskspace > I → sres.1 = 0 → lcres.1 = 0 → wres.1 = 0 →
      verify_disk_usage now mt I sres lcres wres
          = ⟨0, "", mt.update CheckKey.diskspace now, true⟩
        ∧ (now2 - now ≤ I →
          (verify_disk_usage now2 (mt.update CheckKey.diskspace now) I sres2 lcres2 wres2).invoked
            = false)) := by
  refine ⟨?_, ?_, ?_, ?_, ?_, ?_, ?_, ?_, ?_, ?_, ?_, ?_, ?_⟩
  · intro hle
    have hnd : ¬(now - mt.get CheckKey.memory > I) := not_lt.mpr hle
    cases allow <;> simp [verify_memory_usage, hnd]
  · intro hdue hallow
    simp [verify_memory_usage, hallow]
  · intro hle
    have hnd : ¬(now - mt.get CheckKey.proxy > I) := not_lt.mpr hle
    simp [verify_user_proxy, hnd]
  · intro hle
    have hnd : ¬(now - mt.get CheckKey.looping > I) := not_lt.mpr hle
    simp [verify_looping_job, hnd]
  · intro hle
    have hnd : ¬(now - mt.get CheckKey.diskspace > I) := not_lt.mpr hle
    simp [verify_disk_usage, hnd]
  · intro hdue hallow
    by_cases hm : mres.1 = 0 <;> simp [verify_memory_usage, hdue, hallow, hm]
  · intro hdue
    by_cases hp : pres.1 = 0 <;> simp [verify_user_proxy, hdue, hp]
  · intro hdue
    cases lres with
    | error e => simp [verify_looping_job, hdue]
    | ok r => by_cases hr : r.1 = 0 <;> simp [verify_looping_job, hdue, hr]
  · intro hdue
    by_cases h1 : sres.1 = 0 <;> by_cases h2 : lcres.1 = 0 <;> by_cases h3 : wres.1 = 0 <;>
      simp [verify_disk_usage, hdue, h1, h2, h3]
  · intro hdue hallow hm
    refine ⟨by simp [verify_memory_usage, hdue, hallow, hm], ?_⟩
    intro hle
    have hnd : ¬(now2 - (mt.update CheckKey.memory now).get CheckKey.memory > I) := by
      rw [MonitoringTime.get_update_self]
      exact not_lt.mpr hle
    cases allow2 <;> simp [verify_memory_usage, hnd]
  · intro hdue hp
    refine ⟨by simp [verify_user_proxy, hdue, hp], ?_⟩
    intro hle
    have hnd : ¬(now2 - (mt.update CheckKey.proxy now).get CheckKey.proxy > I) := by
      rw [MonitoringTime.get_update_self]
      exact not_lt.mpr hle
    simp [verify_user_proxy, hnd]
  · intro hdue hlr hr0
    subst hlr
    refine ⟨by simp [verify_looping_job, hdue, hr0], ?_⟩
    intro hle
    have hnd : ¬(now2 - (mt.update CheckKey.looping now).get CheckKey.looping > I) := by
      rw [MonitoringTime.get_update_self]
      exact not_lt.mpr hle
    simp [verify_looping_job, hnd]
  · intro hdue h1 h2 h3
    refine ⟨by simp [verify_disk_usage, hdue, h1, h2, h3], ?_⟩
    intro hle
    have hnd : ¬(now2 - (mt.update CheckKey.diskspace now).get CheckKey.diskspace > I) := by
      rw [MonitoringTime.get_update_self]
      exact not_lt.mpr hle
    simp [verify_disk_usage, hnd]

theorem c2_interval_gating_amended_witness :
    (verify_user_proxy 100 mtZero 600 (0, "") = ⟨0, "", mtZero, false⟩)
    ∧ (verify_memory_usage 1000 mtZero 60 false (7, "mem") = ⟨0, "", mtZero, false⟩)
    ∧ ((verify_user_proxy 1000 mtZero 600 (0, "")).invoked = true)
    ∧ (verify_user_proxy 1000 mtZero 600 (0, "")
        = ⟨0, "", mtZero.update CheckKey.proxy 1000, true⟩)
    ∧ ((verify_user_proxy 1500 (mtZero.update CheckKey.proxy 1000) 600 (0, "")).invoked
        = false)
    ∧ (verify_looping_job 1000 mtZero 600 (Except.ok (0, ""))
        = ⟨0, "", mtZero.update CheckKey.looping 1000, true⟩)
    ∧ ((verify_looping_job 1500 (mtZero.update CheckKey.looping 1000) 600
        (Except.error ("late"))).invoked = false) := by
  have h := c2_interval_gating_amended 1000 1500 600 mtZero true true (0, "") (0, "")
    (0, "") (0, "") (Except.ok (0, "")) (Except.error ("late")) (0, "")
    (0, "") (0, "") (0, "") (0, "") (0, "") (0, "")
  have hm := c2_interval_gating_amended 1000 1500 60 mtZero false true (7, "mem") (0, "")
    (0, "") (0, "") (Except.ok (0, "")) (Except.error ("late")) (0, "")
    (0, "") (0, "") (0, "") (0, "") (0, "") (0, "")
  have hp := c2_interval_gating_amended 100 1500 600 mtZero true true (0, "") (0, "")
    (0, "") (0, "") (Except.ok (0, "")) (Except.error ("late")) (0, "")
    (0, "") (0, "") (0, "") (0, "") (0, "") (0, "")
  refine ⟨hp.2.2.1 (by decide), hm.2.1 (by decide) rfl,
    h.2.2.2.2.2.2.1 (by decide), ?_, ?_, ?_, ?_⟩
  · exact (h.2.2.2.2.2.2.2.2.2.2.1 (by decide) (by decide)).1
  · exact (h.2.2.2.2.2.2.2.2.2.2.1 (by decide) (by decide)).2 (by decide)
  · exact (h.2.2.2.2.2.2.2.2.2.2.2.1 (by decide) rfl (by decide)).1
  · exact (h.2.2.2.2.2.2.2.2.2.2.2.1 (by decide) rfl (by decide)).2 (by decide)

/-- C8: an exception raised by the looping-job algorithm is caught by
verify_looping_job and converted into the UNKNOWNEXCEPTION error code with
the exception text in the diagnostics; the wrapper returns normally instead
of propagating. -/
theorem c8_looping_exception_never_propagates (now I : Int) (mt : MonitoringTime)
    (e : String) (h : now - mt.get CheckKey.looping > I) :
    verify_looping_job now mt I (Except.error e) =
      ⟨UNKNOWNEXCEPTION, "exception caught in looping job algorithm: " ++ e, mt, true⟩ := by
  simp [verify_looping_job, h]

theorem c8_looping_exception_never_propagates_witness :
    (1000 : Int) - mtZero.get CheckKey.looping > 600
    ∧ verify_looping_job 1000 mtZero 600 (Except.error ("boom")) =
        ⟨UNKNOWNEXCEPTION, "exception caught in looping job algorithm: boom", mtZero, true⟩ :=
  ⟨by decide,
   (c8_looping_exception_never_propagates 1000 600 mtZero ("boom") (by decide)).trans
     (by decide)⟩

/-- C3 counterexample: a maxtime that parses to a negative integer is used
as the max running time instead of the default lifetime, so it is not true
that only a positive parsed integer replaces the default. -/
theorem c3_max_running_time_cex :
    get_max_running_time 100 (some { maxtime := "-3600", maxwdir := "" }) = -3600
    ∧ ((-3600 : Int) < 0) ∧ ((-3600 : Int) ≠ 100) := by
  refine ⟨by decide, by decide, by decide⟩

/-- C3 amended: get_max_running_time returns the default lifetime when
queuedata is absent, when maxtime is empty, fails to parse, or parses to
zero; any nonzero parsed integer (positive or negative) is used instead of
the default. -/
theorem c3_max_running_time_amended (lifetime : Int) (qd : Queuedata) (v : Int) :
    (get_max_running_time lifetime none = lifetime)
    ∧ (qd.maxtime = "" → get_max_running_time lifetime (some qd) = lifetime)
    ∧ (pyParseInt qd.maxtime = none → get_max_running_time lifetime (some qd) = lifetime)
    ∧ (pyParseInt qd.maxtime = some 0 → get_max_running_time lifetime (some qd) = lifetime)
    ∧ (pyTruthy qd.maxtime = true → pyParseInt qd.maxtime = some v → v ≠ 0 →
      get_max_running_time lifetime (some qd) = v) := by
  refine ⟨rfl, ?_, ?_, ?_, ?_⟩
  · intro h
    simp [get_max_running_time, pyTruthy, h]
  · intro h
    by_cases ht : qd.maxtime = "" <;> simp [get_max_running_time, pyTruthy, ht, h]
  · intro h
    by_cases ht : qd.maxtime = "" <;> simp [get_max_running_time, pyTruthy, ht, h]
  · intro ht hp hv
    simp [get_max_running_time, ht, hp, hv]

theorem c3_max_running_time_amended_witness :
    get_max_running_time 100 none = 100
    ∧ get_max_running_time 100 (some { maxtime := "abc", maxwdir := "" }) = 100
    ∧ get_max_running_time 100 (some { maxtime := "0", maxwdir := "" }) = 100
    ∧ get_max_running_time 100 (some { maxtime := "3600", maxwdir := "" }) = 3600 :=
  ⟨(c3_max_running_time_amended 100 ⟨"abc", ""⟩ 0).1,
   (c3_max_running_time_amended 100 ⟨"abc", ""⟩ 0).2.2.1 (by decide),
   (c3_max_running_time_amended 100 ⟨"0", ""⟩ 0).2.2.2.1 (by decide),
   (c3_max_running_time_amended 100 ⟨"3600", ""⟩ 3600).2.2.2.2 (by decide) (by decide)
     (by decide)⟩

/-- C9 counterexample: on an unparseable configuration value the fallback is
2097152 treated as kB, which converts to 2147483648 bytes, not to the
2097152 bytes (2 MiB) the claim states. -/
theorem c9_stdout_limit_cex :
    pyParseInt ("not-a-number") = none
    ∧ get_local_size_limit_stdout ("not-a-number") true = 2147483648
    ∧ ((2147483648 : Int) ≠ 2097152) := by
  refine ⟨by decide, by decide, by decide⟩

/-- C9 amended: get_local_size_limit_stdout never raises; a parseable
configured value v (in kB) yields v * 1024 bytes, and on any parse failure
the function falls back to 2097152 kB, i.e. 2147483648 bytes when the bytes
flag is true. -/
theorem c9_stdout_limit_amended (cfg : String) (v : Int) :
    (pyParseInt cfg = some v →
      get_local_size_limit_stdout cfg true = v * 1024
        ∧ get_local_size_limit_stdout cfg false = v)
    ∧ (pyParseInt cfg = none →
      get_local_size_limit_stdout cfg true = 2097152 * 1024
        ∧ get_local_size_limit_stdout cfg false = 2097152) := by
  constructor <;> intro h <;> simp [get_local_size_limit_stdout, h]

theorem c9_stdout_limit_amended_witness :
    (get_local_size_limit_stdout ("2048") true = 2048 * 1024)
    ∧ (get_local_size_limit_stdout ("bad") true = 2097152 * 1024) :=
  ⟨((c9_stdout_limit_amended ("2048") 2048).1 (by decide)).1,
   ((c9_stdout_limit_amended ("bad") 0).2 (by decide)).1⟩

/-- C10: evaluation of the work-directory limit resolution.  When maxwdir
parses, the limit is maxwdir MB in bytes; when it is empty or unparseable
the except branch raises TypeError (get_max_input_size is called without its
required queuedata argument) instead of returning the documented fallback of
the 14336 MB max-input-size default plus the stdout limit.  The last
conjunct shows what the correctly-called fallback helper would return. -/
theorem c10_work_dir_limit_resolution :
    get_max_allowed_work_dir_size { maxtime := "", maxwdir := "bad" }
        = Except.error PyError.typeError
    ∧ get_max_allowed_work_dir_size { maxtime := "", maxwdir := "" }
        = Except.error PyError.typeError
    ∧ get_max_allowed_work_dir_size { maxtime := "", maxwdir := "16336" }
        = Except.ok (16336 * 1024 ^ 2)
    ∧ get_max_input_size { maxtime := "", maxwdir := "bad" } false = 14336 * 1024 ^ 2 := by
  refine ⟨by rfl, by rfl, by rfl, by decide⟩

theorem check_stdout_file_id (limit : Int) (fs : String → Option Int) (rf : Int)
    (st : PayloadCheckState) (f : String)
    (h : triggersStdout limit fs f = false) :
    check_stdout_file limit fs rf st f = st := by
  unfold triggersStdout at h
  cases hc : strContains f ("job.log.tgz")
  · rw [hc] at h
    simp only [Bool.not_false, Bool.true_and] at h
    cases hfs : fs f
    · simp [check_stdout_file, hc, hfs]
    · rw [hfs] at h
      simp only [decide_eq_false_iff_not, not_lt] at h
      simp [check_stdout_file, hc, hfs, not_lt.mpr h]
  · simp [check_stdout_file, hc]

theorem check_stdout_file_trigger_eq (limit : Int) (fs : String → Option Int) (rf : Int)
    (st : PayloadCheckState) (f : String)
    (h1 : strContains f ("job.log.tgz") = false) (sz : Int) (hfs : fs f = some sz)
    (hsz : sz > limit) :
    check_stdout_file limit fs rf st f =
      (if st.job.infiles = [] then
        ⟨st.ec, stdoutTooBigMsg sz limit,
          { st.job with
            state := "failed"
            piloterrorcodes := [STDOUTTOOBIG]
            piloterrordiags := [toString STDOUTTOOBIG] },
          st.killed ++ [st.job.pid], st.removed⟩
      else
        ⟨rf, stdoutTooBigMsg sz limit,
          { st.job with
            state := "failed"
            piloterrorcodes := [STDOUTTOOBIG]
            piloterrordiags := [toString STDOUTTOOBIG] },
          st.killed ++ [st.job.pid], st.removed ++ st.job.infiles⟩) := by
  by_cases hi : st.job.infiles = [] <;>
    simp [check_stdout_file, h1, hfs, hsz, add_error_code, hi]

theorem triggersStdout_elim (limit : Int) (fs : String → Option Int) (f : String)
    (ht : triggersStdout limit fs f = true) :
    strContains f ("job.log.tgz") = false ∧ ∃ sz, fs f = some sz ∧ sz > limit := by
  unfold triggersStdout at ht
  rw [Bool.and_eq_true] at ht
  obtain ⟨ht1, ht2⟩ := ht
  rw [Bool.not_eq_true'] at ht1
  refine ⟨ht1, ?_⟩
  cases hfs : fs f
  · rw [hfs] at ht2
    simp at ht2
  · rename_i sz
    rw [hfs] at ht2
    rw [decide_eq_true_eq] at ht2
    exact ⟨sz, rfl, ht2⟩

theorem c4base_step (limit : Int) (fs : String → Option Int) (rf : Int)
    (job0 : Job) (st : PayloadCheckState) (f : String) (h : C4Base job0 st) :
    C4Base job0 (check_stdout_file limit fs rf st f) := by
  obtain ⟨hp, hi, he⟩ := h
  cases ht : triggersStdout limit fs f
  · rw [check_stdout_file_id limit fs rf st f ht]
    exact ⟨hp, hi, he⟩
  · obtain ⟨ht1, sz, hfs, hsz⟩ := triggersStdout_elim limit fs f ht
    rw [check_stdout_file_trigger_eq limit fs rf st f ht1 sz hfs hsz]
    by_cases hil : st.job.infiles = []
    · rw [if_pos hil]
      exact ⟨hp, hi, he⟩
    · rw [if_neg hil]
      exact ⟨hp, hi, fun h0 => absurd (hi.trans h0) hil⟩

theorem c4fail_step (limit : Int) (fs : String → Option Int) (rf : Int)
    (job0 : Job) (st : PayloadCheckState) (f : String) (h : C4Fail job0 rf st) :
    C4Fail job0 rf (check_stdout_file limit fs rf st f) := by
  obtain ⟨hp, hi, hs, hc, hk, hr, he⟩ := h
  cases ht : triggersStdout limit fs f
  · rw [check_stdout_file_id limit fs rf st f ht]
    exact ⟨hp, hi, hs, hc, hk, hr, he⟩
  · obtain ⟨ht1, sz, hfs, hsz⟩ := triggersStdout_elim limit fs f ht
    rw [check_stdout_file_trigger_eq limit fs rf st f ht1 sz hfs hsz]
    by_cases hil : st.job.infiles = []
    · rw [if_pos hil]
      exact ⟨hp, hi, rfl, by simp, List.mem_append_left _ hk,
        fun h0 => absurd (hi.symm.trans hil) h0, fun h0 => he h0⟩
    · rw [if_neg hil]
      refine ⟨hp, hi, rfl, by simp, List.mem_append_left _ hk, ?_, ?_⟩
      · intro h0
        refine ⟨rfl, fun x hx => List.mem_append_right _ ?_⟩
        rw [hi]
        exact hx
      · intro h0
        exact absurd (hi.trans h0) hil

theorem c4fail_establish (limit : Int) (fs : String → Option Int) (rf : Int)
    (job0 : Job) (st : PayloadCheckState) (f : String) (hb : C4Base job0 st)
    (ht : triggersStdout limit fs f = true) :
    C4Fail job0 rf (check_stdout_file limit fs rf st f) := by
  obtain ⟨hp, hi, he⟩ := hb
  obtain ⟨ht1, sz, hfs, hsz⟩ := triggersStdout_elim limit fs f ht
  rw [check_stdout_file_trigger_eq limit fs rf st f ht1 sz hfs hsz]
  have hkm : job0.pid ∈ st.killed ++ [st.job.pid] := by
    refine List.mem_append_right _ ?_
    rw [hp]
    exact List.mem_singleton_self _
  by_cases hil : st.job.infiles = []
  · rw [if_pos hil]
    exact ⟨hp, hi, rfl, by simp, hkm,
      fun h0 => absurd (hi.symm.trans hil) h0, fun h0 => he h0⟩
  · rw [if_neg hil]
    refine ⟨hp, hi, rfl, by simp, hkm, ?_, ?_⟩
    · intro h0
      refine ⟨rfl, fun x hx => List.mem_append_right _ ?_⟩
      rw [hi]
      exact hx
    · intro h0
      exact absurd (hi.trans h0) hil

theorem c4base_foldl (limit : Int) (fs : String → Option Int) (rf : Int)
    (job0 : Job) (l : List String) (st : PayloadCheckState) (h : C4Base job0 st) :
    C4Base job0 (l.foldl (check_stdout_file limit fs rf) st) := by
  induction l generalizing st with
  | nil => exact h
  | cons a l ih =>
    exact ih _ (c4base_step limit fs rf job0 st a h)

theorem c4fail_foldl (limit : Int) (fs : String → Option Int) (rf : Int)
    (job0 : Job) (l : List String) (st : PayloadCheckState) (h : C4Fail job0 rf st) :
    C4Fail job0 rf (l.foldl (check_stdout_file limit fs rf) st) := by
  induction l generalizing st with
  | nil => exact h
  | cons a l ih =>
    exact ih _ (c4fail_step limit fs rf job0 st a h)

theorem foldl_id_of_no_trigger (limit : Int) (fs : String → Option Int) (rf : Int)
    (l : List String) (st : PayloadCheckState)
    (h : ∀ f ∈ l, triggersStdout limit fs f = false) :
    l.foldl (check_stdout_file limit fs rf) st = st := by
  induction l generalizing st with
  | nil => rfl
  | cons a l ih =>
    rw [List.foldl_cons, check_stdout_file_id limit fs rf st a (h a (by simp))]
    exact ih st (fun f hf => h f (by simp [hf]))

/-- C4 counterexample: with a 3 MiB stdout file over the 2 MiB configured
limit and no listed input files, check_payload_stdout fails the job, attaches
the STDOUTTOOBIG code and kills the payload, yet returns exit code 0 - the
claim requires a nonzero exit code. -/
theorem c4_stdout_check_cex :
    fsC4 (pathJoin ("/w") ("payload.stdout")) = some 3145728
    ∧ ((3145728 : Int) > get_local_size_limit_stdout ("2048") true)
    ∧ (check_payload_stdout jobC4 ("payload.stdout") ("2048") [] fsC4 0).job.state = "failed"
    ∧ STDOUTTOOBIG ∈
        (check_payload_stdout jobC4 ("payload.stdout") ("2048") [] fsC4 0).job.piloterrorcodes
    ∧ (check_payload_stdout jobC4 ("payload.stdout") ("2048") [] fsC4 0).killed = [123]
    ∧ (check_payload_stdout jobC4 ("payload.stdout") ("2048") [] fsC4 0).ec = 0 := by
  refine ⟨by decide, by decide, by decide, by decide, by decide, by decide⟩

/-- C4 amended: if no file of the checked list exists above the limit (or
only the skipped job.log.tgz archive does), check_payload_stdout returns
(0, empty diagnostics) and performs no mutation; if some checked file exists
with size above the limit, the job state becomes failed, the STDOUTTOOBIG
code is attached, the payload process tree rooted at job.pid is killed and
every listed input file is handed to remove_files, but the returned exit
code is the remove_files result when input files are listed and 0 otherwise,
not an error code of its own. -/
theorem c4_stdout_check_amended (job : Job) (payloadstdout lcfg : String)
    (log_files : List String) (fs : String → Option Int) (rf : Int) :
    ((∀ f ∈ payload_file_list job payloadstdout log_files,
        triggersStdout (get_local_size_limit_stdout lcfg true) fs f = false) →
      check_payload_stdout job payloadstdout lcfg log_files fs rf = ⟨0, "", job, [], []⟩)
    ∧ (∀ f ∈ payload_file_list job payloadstdout log_files,
        triggersStdout (get_local_size_limit_stdout lcfg true) fs f = true →
      (check_payload_stdout job payloadstdout lcfg log_files fs rf).job.state = "failed"
      ∧ STDOUTTOOBIG ∈
          (check_payload_stdout job payloadstdout lcfg log_files fs rf).job.piloterrorcodes
      ∧ job.pid ∈ (check_payload_stdout job payloadstdout lcfg log_files fs rf).killed
      ∧ (job.infiles ≠ [] →
          (check_payload_stdout job payloadstdout lcfg log_files fs rf).ec = rf
          ∧ ∀ x ∈ job.infiles,
            x ∈ (check_payload_stdout job payloadstdout lcfg log_files fs rf).removed)
      ∧ (job.infiles = [] →
          (check_payload_stdout job payloadstdout lcfg log_files fs rf).ec = 0)) := by
  constructor
  · intro h
    unfold check_payload_stdout
    exact foldl_id_of_no_trigger _ fs rf _ _ h
  · intro f hf ht
    have hfail : C4Fail job rf (check_payload_stdout job payloadstdout lcfg log_files fs rf) := by
      unfold check_payload_stdout
      obtain ⟨l1, l2, hsplit⟩ := List.append_of_mem hf
      rw [hsplit, List.foldl_append, List.foldl_cons]
      refine c4fail_foldl _ fs rf job l2 _ ?_
      refine c4fail_establish _ fs rf job _ f ?_ ht
      exact c4base_foldl _ fs rf job l1 _ ⟨rfl, rfl, fun _ => rfl⟩
    obtain ⟨hp, hi, hs, hc, hk, hr, he⟩ := hfail
    exact ⟨hs, hc, hk, hr, he⟩

theorem c4_stdout_check_amended_witness :
    (check_payload_stdout jobC4w ("payload.stdout") ("2048") [] fsC4 5).job.state = "failed"
    ∧ (check_payload_stdout jobC4w ("payload.stdout") ("2048") [] fsC4 5).ec = 5
    ∧ ("in1" : String) ∈ (check_payload_stdout jobC4w ("payload.stdout") ("2048") [] fsC4 5).removed
    ∧ (7 : Int) ∈ (check_payload_stdout jobC4w ("payload.stdout") ("2048") [] fsC4 5).killed := by
  have h := (c4_stdout_check_amended jobC4w ("payload.stdout") ("2048") [] fsC4 5).2
    (pathJoin ("/w") ("payload.stdout")) (by decide) (by decide)
  obtain ⟨h1, h2, h3, h4, h5⟩ := h
  have h6 := h4 (by decide)
  exact ⟨h1, h6.1, h6.2 ("in1") (by decide), h3⟩

/-- C5: when the work directory exists and the limit resolution succeeds
with maximum M, a measured size above M fails the job with the
USERDIRTOOLARGE code attached, kills the payload, hands the listed input
files to remove_files and re-measures the size, while a size at or below M
leaves the job untouched except for the size history; in both cases the
(possibly re-measured) size is appended to the history exactly when it is
positive. -/
theorem c5_work_dir_check (job : Job) (qd : Queuedata) (size1 size2 ls_ec rf M : Int)
    (hM : get_max_allowed_work_dir_size qd = Except.ok M) :
    (size1 > M → ∃ r, check_work_dir job qd true size1 size2 ls_ec rf = Except.ok r
      ∧ r.job.state = "failed"
      ∧ USERDIRTOOLARGE ∈ r.job.piloterrorcodes
      ∧ r.killed = [job.pid]
      ∧ (job.infiles ≠ [] → r.removed = job.infiles
          ∧ r.job.workdirsizes =
            (if size2 > 0 then job.workdirsizes ++ [size2] else job.workdirsizes))
      ∧ (job.infiles = [] → r.removed = []
          ∧ r.job.workdirsizes =
            (if size1 > 0 then job.workdirsizes ++ [size1] else job.workdirsizes)))
    ∧ (size1 ≤ M →
      check_work_dir job qd true size1 size2 ls_ec rf =
        Except.ok ⟨0, "", if size1 > 0 then job.add_workdir_size size1 else job, [], []⟩) := by
  constructor
  · intro hgt
    by_cases hil : job.infiles = []
    · by_cases hsz : size1 > 0
      · refine ⟨⟨ls_ec, workDirTooBigMsg job.workdir size1 M,
          Job.add_workdir_size { job with
            state := "failed"
            piloterrorcodes := [USERDIRTOOLARGE]
            piloterrordiags := [toString USERDIRTOOLARGE] } size1,
          [job.pid], []⟩,
          by simp [check_work_dir, hM, hgt, hil, hsz, add_error_code],
          by simp [Job.add_workdir_size], by simp [Job.add_workdir_size], rfl, ?_, ?_⟩
        · intro h0
          exact absurd hil h0
        · intro h0
          exact ⟨rfl, by simp [Job.add_workdir_size, hsz]⟩
      · refine ⟨⟨ls_ec, workDirTooBigMsg job.workdir size1 M,
          { job with
            state := "failed"
            piloterrorcodes := [USERDIRTOOLARGE]
            piloterrordiags := [toString USERDIRTOOLARGE] },
          [job.pid], []⟩,
          by simp [check_work_dir, hM, hgt, hil, hsz, add_error_code],
          rfl, by simp, rfl, ?_, ?_⟩
        · intro h0
          exact absurd hil h0
        · intro h0
          exact ⟨rfl, by simp [hsz]⟩
    · by_cases hsz : size2 > 0
      · refine ⟨⟨rf, workDirTooBigMsg job.workdir size1 M,
          Job.add_workdir_size { job with
            state := "failed"
            piloterrorcodes := [USERDIRTOOLARGE]
            piloterrordiags := [toString USERDIRTOOLARGE] } size2,
          [job.pid], job.infiles⟩,
          by simp [check_work_dir, hM, hgt, hil, hsz, add_error_code],
          by simp [Job.add_workdir_size], by simp [Job.add_workdir_size], rfl, ?_, ?_⟩
        · intro h0
          exact ⟨rfl, by simp [Job.add_workdir_size, hsz]⟩
        · intro h0
          exact absurd h0 hil
      · refine ⟨⟨rf, workDirTooBigMsg job.workdir size1 M,
          { job with
            state := "failed"
            piloterrorcodes := [USERDIRTOOLARGE]
            piloterrordiags := [toString USERDIRTOOLARGE] },
          [job.pid], job.infiles⟩,
          by simp [check_work_dir, hM, hgt, hil, hsz, add_error_code],
          rfl, by simp, rfl, ?_, ?_⟩
        · intro h0
          exact ⟨rfl, by simp [hsz]⟩
        · intro h0
          exact absurd h0 hil
  · intro hle
    have hng : ¬(size1 > M) := not_lt.mpr hle
    simp [check_work_dir, hM, hng]

theorem c5_work_dir_check_witness :
    ∃ r, check_work_dir jobC4w { maxtime := "", maxwdir := "1" } true 2000000 500 0 3
        = Except.ok r
      ∧ r.job.state = "failed"
      ∧ USERDIRTOOLARGE ∈ r.job.piloterrorcodes
      ∧ r.killed = [7] ∧ r.removed = ["in1"] ∧ r.job.workdirsizes = [500] := by
  have h := (c5_work_dir_check jobC4w ⟨"", "1"⟩ 2000000 500 0 3 1048576 (by rfl)).1
    (by decide)
  obtain ⟨r, heq, hs, hc, hk, hrem, _⟩ := h
  have h6 := hrem (by decide)
  exact ⟨r, heq, hs, hc, hk.trans (by decide), h6.1.trans (by decide),
    h6.2.trans (by decide)⟩

/-- C6 counterexample: a nonzero looping result short-circuits the disk
check of the same tick, so the looping and disk checks are not evaluated
independently of each other. -/
theorem c6_battery_order_cex :
    oLoopFail.looping_res.1 ≠ 0
    ∧ (job_monitor_tasks ("running") true false oLoopFail).2.2
        = [Task.memory, Task.proxy, Task.looping]
    ∧ Task.disk ∉ (job_monitor_tasks ("running") true false oLoopFail).2.2 := by
  refine ⟨by decide, by decide, by decide⟩

/-- C6 amended: the checks run in the fixed order memory, proxy, looping,
disk; the memory check (and CPU update) runs exactly when the job state is
running; a nonzero memory or proxy result short-circuits all remaining
checks; and a nonzero looping result also short-circuits the disk check
(each check short-circuits everything after it, including utility
supervision and heartbeat), as shown by the full trace of each scenario. -/
theorem c6_battery_order_amended (state : String) (vp un : Bool) (o : MonitorOracles) :
    (Task.memory ∈ (job_monitor_tasks state vp un o).2.2 ↔ state = "running")
    ∧ (state = "running" → o.memory_res.1 ≠ 0 →
      (job_monitor_tasks state vp un o).2.2 = [Task.memory])
    ∧ (vp = true → o.proxy_res.1 ≠ 0 → (state = "running" → o.memory_res.1 = 0) →
      (job_monitor_tasks state vp un o).2.2 =
        (if state = "running" then [Task.memory] else []) ++ [Task.proxy])
    ∧ (o.looping_res.1 ≠ 0 → (state = "running" → o.memory_res.1 = 0) →
      (vp = true → o.proxy_res.1 = 0) →
      (job_monitor_tasks state vp un o).2.2 =
        (if state = "running" then [Task.memory] else [])
          ++ (if vp then [Task.proxy] else []) ++ [Task.looping])
    ∧ (o.looping_res.1 ≠ 0 → Task.disk ∉ (job_monitor_tasks state vp un o).2.2)
    ∧ (o.disk_res.1 ≠ 0 → (state = "running" → o.memory_res.1 = 0) →
      (vp = true → o.proxy_res.1 = 0) → o.looping_res.1 = 0 →
      (job_monitor_tasks state vp un o).2.2 =
        (if state = "running" then [Task.memory] else [])
          ++ (if vp then [Task.proxy] else []) ++ [Task.looping, Task.disk])
    ∧ (o.disk_res.1 ≠ 0 → Task.utility ∉ (job_monitor_tasks state vp un o).2.2
        ∧ Task.heartbeat ∉ (job_monitor_tasks state vp un o).2.2)
    ∧ ((state = "running" → o.memory_res.1 = 0) → (vp = true → o.proxy_res.1 = 0) →
      o.looping_res.1 = 0 → o.disk_res.1 = 0 →
      (job_monitor_tasks state vp un o).2.2 =
        (if state = "running" then [Task.memory] else [])
          ++ (if vp then [Task.proxy] else []) ++ [Task.looping, Task.disk]
          ++ (if un then [Task.utility] else []) ++ [Task.heartbeat]) := by
  by_cases hs : state = "running" <;>
    by_cases hm : o.memory_res.1 = 0 <;>
    by_cases hp : o.proxy_res.1 = 0 <;>
    by_cases hl : o.looping_res.1 = 0 <;>
    by_cases hd : o.disk_res.1 = 0 <;>
    cases vp <;> cases un <;>
    simp [job_monitor_tasks, hs, hm, hp, hl, hd]

theorem c6_battery_order_amended_witness :
    ((job_monitor_tasks ("running") true true ⟨(0, ""), (0, ""), (0, ""), (0, "")⟩).2.2
      = [Task.memory, Task.proxy, Task.looping, Task.disk, Task.utility, Task.heartbeat])
    ∧ ((job_monitor_tasks ("running") true false oLoopFail).2.2
      = [Task.memory, Task.proxy, Task.looping]) := by
  have h1 := (c6_battery_order_amended ("running") true true
    ⟨(0, ""), (0, ""), (0, ""), (0, "")⟩).2.2.2.2.2.2.2
    (fun _ => rfl) (fun _ => rfl) rfl rfl
  have h2 := (c6_battery_order_amended ("running") true false oLoopFail).2.2.2.1
    (by decide) (fun _ => rfl) (fun _ => rfl)
  exact ⟨h1.trans (by decide), h2.trans (by decide)⟩

theorem after_crashes_launches (cmd : String) (n : Nat) :
    (after_crashes (initialUtilityRecord cmd) n).launches = min (1 + n) 6 := by
  induction n with
  | zero => simp [after_crashes, initialUtilityRecord]
  | succ n ih =>
    show (crash_then_monitor (after_crashes (initialUtilityRecord cmd) n)).launches = _
    unfold crash_then_monitor utility_monitor_step
    by_cases hle : (after_crashes (initialUtilityRecord cmd) n).launches ≤ 5
    · simp only [hle, if_pos, if_true]
      simp only [ih] at hle ⊢
      omega
    · simp only [hle, if_neg, if_false, if_true]
      simp only [ih] at hle ⊢
      omega

/-- C7 counterexample: starting from the initial launch (counter 1), five
observed crashes are each relaunched and drive the stored launch counter to
6, which exceeds the fixed cap of 5 - the counter does not stay at or below
the cap. -/
theorem c7_utility_cap_cex :
    (after_crashes (initialUtilityRecord ("mem-monitor")) 5).launches = 6
    ∧ (6 : Nat) > 5 := by
  refine ⟨by decide, by decide⟩

/-- C7 amended: the launch counter is monotonically non-decreasing, each
successful restart increments it by exactly one, a crashed record whose
counter is above 5 is never modified again, the counter never exceeds 6
(one above the cap, reached by the restart that uses the last allowed
attempt), and after n crashes of a command first launched with counter 1
the counter is min (1 + n) 6; in particular the 6th observed crash of the
same command is not relaunched. -/
theorem c7_utility_restart_amended (r : UtilityRecord) (ok : Bool) (n : Nat)
    (cmd : String) :
    (r.launches ≤ (utility_monitor_step r ok).launches)
    ∧ (r.running = false → r.launches ≤ 5 → ok = true →
      utility_monitor_step r ok = ⟨true, r.launches + 1, r.cmd⟩)
    ∧ (r.running = false → r.launches > 5 → utility_monitor_step r ok = r)
    ∧ (r.launches ≤ 6 → (utility_monitor_step r ok).launches ≤ 6)
    ∧ ((after_crashes (initialUtilityRecord cmd) n).launches = min (1 + n) 6)
    ∧ (relaunches { after_crashes (initialUtilityRecord cmd) 5 with running := false }
        true = false) := by
  refine ⟨?_, ?_, ?_, ?_, after_crashes_launches cmd n, ?_⟩
  · by_cases hr : r.running = false <;> by_cases hl : r.launches ≤ 5 <;> cases ok <;>
      simp [utility_monitor_step, hr, hl]
  · intro hr hl hok
    simp [utility_monitor_step, hr, hl, hok]
  · intro hr hl
    have hnl : ¬(r.launches ≤ 5) := by omega
    simp [utility_monitor_step, hr, hnl]
  · intro h6
    by_cases hr : r.running = false <;> by_cases hl : r.launches ≤ 5 <;> cases ok <;>
      simp [utility_monitor_step, hr, hl] <;> omega
  · have h := after_crashes_launches cmd 5
    simp [relaunches, h]

theorem c7_utility_restart_amended_witness :
    utility_monitor_step ⟨false, 3, "mon"⟩ true = ⟨true, 4, "mon"⟩
    ∧ utility_monitor_step ⟨false, 6, "mon"⟩ true = ⟨false, 6, "mon"⟩
    ∧ (after_crashes (initialUtilityRecord ("mon")) 7).launches = 6 := by
  refine ⟨?_, ?_, ?_⟩
  · exact (c7_utility_restart_amended ⟨false, 3, "mon"⟩ true 0 ("mon")).2.1 rfl
      (by decide) rfl
  · exact (c7_utility_restart_amended ⟨false, 6, "mon"⟩ true 0 ("mon")).2.2.1 rfl
      (by decide)
  · exact ((c7_utility_restart_amended ⟨false, 6, "mon"⟩ true 7 ("mon")).2.2.2.2.1).trans
      (by decide)

end Pilot


